import Mathlib

/-!
Shallow embedding of the chainlink-ea-manager adapter lifecycle orchestrator
(`core/manager.py`, `config/config_manager.py`, `utils/logger.py`).

External effects (container runtime calls, registry queries, HTTP probes)
are modelled by explicit world records that fix the outcome of each call;
each Python method becomes a pure Lean function from its world to a result
that also carries the trace of attempted runtime actions, the journal
entries written through the operation logger, and the warning-level log
calls it made.
-/

/-- Python value as stored in the small dictionaries this program builds:
either Python `None` or a string. -/
inductive PyVal where
  | none
  | str (s : String)
deriving DecidableEq

/-- Embed an optional string the way the Python code stores a possibly
failed regex match into a dict value (`None` on no match). -/
def pyOfOpt : Option String → PyVal
  | Option.none => PyVal.none
  | Option.some s => PyVal.str s

/-- Python `d.get(k, default)`: the stored value when the key is present
(even when that stored value is `None`), the default only when the key is
absent. -/
def pyDictGet (d : List (String × PyVal)) (k : String) (default : PyVal) : PyVal :=
  match d.find? (fun p => p.1 == k) with
  | Option.some p => p.2
  | Option.none => default

/-- View a `PyVal` as an optional string (`None` becomes `none`). -/
def pyValToOpt : PyVal → Option String
  | PyVal.none => Option.none
  | PyVal.str s => Option.some s

/-- Python `int(v)` succeeds: `int(None)` raises `TypeError`; on the digit
strings this program feeds it (regex `\d+` captures and the literal
`"1113"`), `int` succeeds exactly when the string is a nonempty digit
string. -/
def pyIntOk : PyVal → Bool
  | PyVal.none => false
  | PyVal.str s => (!s.isEmpty) && s.toList.all Char.isDigit

/-- Adapter configuration dict built by `ConfigManager._create_adapter_configs`:
the four keys are always present, each mapped to the regex capture or to
`None` when the pattern did not match in the adapter script. -/
def mkAdapterConfig (ip port apiKeyVar subTierVar : Option String) :
    List (String × PyVal) :=
  [("ip", pyOfOpt ip), ("port", pyOfOpt port),
   ("api_key_var", pyOfOpt apiKeyVar), ("sub_tier_var", pyOfOpt subTierVar)]

/-- State of a `ConfigManager` instance: the discovered per-adapter config
dicts (`adapter_configs`) and the credential store (`api_keys`, parsed
from the line-oriented `export NAME=value` file; values may be empty
strings, e.g. from a line `export NAME=`). -/
structure ConfigState where
  adapter_configs : List (String × List (String × PyVal))
  api_keys : List (String × String)
deriving DecidableEq

/-- First-match association lookup, the dictionary read primitive. -/
def lookupStr (d : List (String × String)) (k : String) : Option String :=
  (d.find? (fun p => p.1 == k)).map (fun p => p.2)

/-- `ConfigManager.get_adapter_config`. -/
def get_adapter_config (c : ConfigState) (name : String) :
    Option (List (String × PyVal)) :=
  (c.adapter_configs.find? (fun p => p.1 == name)).map (fun p => p.2)

/-- `ConfigManager.get_api_key`: resolve the adapter's credential variable
name, then look it up in the store; a falsy variable name (Python `None`
or the empty string) short-circuits to `None`. -/
def get_api_key (c : ConfigState) (name : String) : Option String :=
  match get_adapter_config c name with
  | Option.none => Option.none
  | Option.some cfg =>
    match pyDictGet cfg "api_key_var" PyVal.none with
    | PyVal.none => Option.none
    | PyVal.str v => if v = "" then Option.none else lookupStr c.api_keys v

/-- `ConfigManager.get_subscription_tier`, same shape as `get_api_key`. -/
def get_subscription_tier (c : ConfigState) (name : String) : Option String :=
  match get_adapter_config c name with
  | Option.none => Option.none
  | Option.some cfg =>
    match pyDictGet cfg "sub_tier_var" PyVal.none with
    | PyVal.none => Option.none
    | PyVal.str v => if v = "" then Option.none else lookupStr c.api_keys v

/-- Fixed env-var baseline built in `deploy_adapter` (manager.py lines
199-222); `EA_PORT` uses `adapter_config.get('port', '1113')`. -/
def baselineEnvVars (adapter_name : String) (cfg : List (String × PyVal)) :
    List (String × PyVal) :=
  [("EA_PORT", pyDictGet cfg "port" (PyVal.str "1113")),
   ("CACHE_ENABLED", PyVal.str "true"),
   ("CACHE_TYPE", PyVal.str "redis"),
   ("CACHE_KEY_GROUP", PyVal.str adapter_name),
   ("CACHE_REDIS_HOST", PyVal.str "192.168.1.1"),
   ("CACHE_REDIS_PORT", PyVal.str "6379"),
   ("CACHE_REDIS_TIMEOUT", PyVal.str "10000"),
   ("RATE_LIMIT_ENABLED", PyVal.str "true"),
   ("WARMUP_ENABLED", PyVal.str "true"),
   ("RATE_LIMIT_API_PROVIDER", PyVal.str adapter_name),
   ("REQUEST_COALESCING_ENABLED", PyVal.str "true"),
   ("REQUEST_COALESCING_INTERVAL", PyVal.str "100"),
   ("REQUEST_COALESCING_INTERVAL_MAX", PyVal.str "1000"),
   ("REQUEST_COALESCING_INTERVAL_COEFFICIENT", PyVal.str "2"),
   ("REQUEST_COALESCING_ENTROPY_MAX", PyVal.str "0"),
   ("LOG_LEVEL", PyVal.str "info"),
   ("DEBUG", PyVal.str "false"),
   ("API_VERBOSE", PyVal.str "false"),
   ("EXPERIMENTAL_METRICS_ENABLED", PyVal.str "true"),
   ("METRICS_NAME", PyVal.str adapter_name),
   ("RETRY", PyVal.str "1"),
   ("TIMEOUT", PyVal.str "30000")]

/-- First conditional step of the synthesis (`if api_key:` at line 226):
`API_KEY` is appended exactly when the resolved credential is truthy
(non-`None` and nonempty). -/
def env_with_key (c : ConfigState) (name : String)
    (cfg : List (String × PyVal)) : List (String × PyVal) :=
  match get_api_key c name with
  | Option.some k =>
      if k = "" then baselineEnvVars name cfg
      else baselineEnvVars name cfg ++ [("API_KEY", PyVal.str k)]
  | Option.none => baselineEnvVars name cfg

/-- Environment mapping synthesized by `deploy_adapter` (lines 199-232):
the baseline plus `API_KEY` when `if api_key:` is truthy and
`RATE_LIMIT_API_TIER` when `if sub_tier:` is truthy (line 231). -/
def build_env_vars (c : ConfigState) (name : String)
    (cfg : List (String × PyVal)) : List (String × PyVal) :=
  match get_subscription_tier c name with
  | Option.some t =>
      if t = "" then env_with_key c name cfg
      else env_with_key c name cfg ++ [("RATE_LIMIT_API_TIER", PyVal.str t)]
  | Option.none => env_with_key c name cfg

/-- Lookup in a synthesized environment mapping. -/
def envLookup (env : List (String × PyVal)) (k : String) : Option PyVal :=
  (env.find? (fun p => p.1 == k)).map (fun p => p.2)

/-- Outcome of the `skopeo list-tags` subprocess in `get_available_tags`:
nonzero exit, output that is not JSON, or a parsed JSON object whose
`Tags` key holds a string array (or is absent). -/
inductive RegistryResponse where
  | execFail
  | badJson
  | json (tags : Option (List String))
deriving DecidableEq

/-- Lexicographic strict order on character lists by code point, the
order Python uses to compare strings. -/
def charsLtB : List Char → List Char → Bool
  | [], [] => false
  | [], _ :: _ => true
  | _ :: _, [] => false
  | a :: as, b :: bs =>
      if a.toNat < b.toNat then true
      else if b.toNat < a.toNat then false
      else charsLtB as bs

/-- Strict string comparison by code points (Python `<` on strings). -/
def strLtB (a b : String) : Bool := charsLtB a.toList b.toList

/-- Insert into a descending-sorted list, keeping equal elements adjacent;
building block of the model of Python `sorted(_, reverse=True)`. -/
def insertDesc (x : String) : List String → List String
  | [] => [x]
  | y :: ys => if strLtB x y then y :: insertDesc x ys else x :: y :: ys

/-- Model of Python `sorted(tags, reverse=True)` on strings: descending
lexicographic (by code point) insertion sort. On strings any correct
descending sort produces the same list, since equal elements are
indistinguishable. -/
def sortDesc : List String → List String
  | [] => []
  | x :: xs => insertDesc x (sortDesc xs)

/-- `EAManager.get_available_tags`: subprocess failure and JSON decode
failure are both caught and return the empty list; otherwise the `Tags`
array (default `[]`) is sorted descending and truncated to the first 10. -/
def get_available_tags : RegistryResponse → List String
  | RegistryResponse.execFail => []
  | RegistryResponse.badJson => []
  | RegistryResponse.json Option.none => []
  | RegistryResponse.json (Option.some ts) => (sortDesc ts).take 10

/-- First element does not exceed the head of the rest. -/
def leadsB (x : String) : List String → Bool
  | [] => true
  | y :: _ => !strLtB x y

/-- Descending order allowing equal adjacent elements. -/
def descendingB : List String → Bool
  | [] => true
  | x :: xs => leadsB x xs && descendingB xs

/-- Strictly descending order: every element strictly greater than the
next. -/
def strictlyDescendingB : List String → Bool
  | [] => true
  | [_] => true
  | x :: y :: rest => strLtB y x && strictlyDescendingB (y :: rest)

/-- Kind of an operation journal entry, as written by `EALogger`. -/
inductive OpKind where
  | initOp
  | deployOp
  | upgradeOp
  | testOp
deriving DecidableEq

/-- One append to the operation journal: kind, subject (adapter or
container name, absent for INITIALIZE) and the success flag. -/
structure JournalEntry where
  kind : OpKind
  subject : Option String
  success : Bool
deriving DecidableEq

/-- Container-runtime action attempted by the orchestrator. -/
inductive RtAction where
  | networkCreate (name : String)
  | containerRun (name : String)
  | containerStop (name : String)
  | containerRemove (name : String)
  | networkConnect (container : String) (staticIp : Option String)
deriving DecidableEq

/-- Result of one public operation: its boolean return value, the trace of
attempted runtime actions, the journal entries appended, and the
warning-level log calls made. -/
structure OpResult where
  success : Bool
  actions : List RtAction
  journal : List JournalEntry
  warnings : List String
deriving DecidableEq

/-- Shared static-IP attachment phase (manager.py lines 101-112 and
278-289): get the container and the network, connect requesting the
static address; on any failure log a warning and retry the plain connect
in a nested try whose own failure is only logged. When one of the two
lookups raised, the retry raises `NameError` at once, so no second
connect reaches the runtime. The phase never propagates an exception. -/
def connectPhase (cname : String) (ip : Option String)
    (containerGetOk networkGetOk staticConnectOk plainConnectOk : Bool) :
    List RtAction × List String :=
  if !containerGetOk || !networkGetOk then
    ([], ["static-ip-fallback"])
  else if staticConnectOk then
    ([RtAction.networkConnect cname ip], [])
  else
    ([RtAction.networkConnect cname ip, RtAction.networkConnect cname Option.none],
     ["static-ip-fallback"])

/-- World of one `initialize_environment` run: which resources exist and
which runtime calls succeed. `plainConnectOk` only affects an error log,
faithfully to the code. -/
structure InitWorld where
  dockerRunning : Bool
  listNetworksOk : Bool
  networkExists : Bool
  networkCreateOk : Bool
  redisDirExists : Bool
  mkdirOk : Bool
  listContainersOk : Bool
  redisExists : Bool
  runOk : Bool
  containerGetOk : Bool
  networkGetOk : Bool
  staticConnectOk : Bool
  plainConnectOk : Bool
deriving DecidableEq

/-- `EAManager.initialize_environment`: ensure the `eas-net` network and
the `redis-cache` container exist, with the static-IP fallback policy;
every failure inside the main try is caught and journaled as an
INITIALIZE failure, while an unavailable container runtime returns
`False` before any journaling. -/
def init_environment (w : InitWorld) : OpResult :=
  if !w.dockerRunning then ⟨false, [], [], []⟩
  else if !w.listNetworksOk then
    ⟨false, [], [⟨OpKind.initOp, Option.none, false⟩], []⟩
  else
    let netActs : List RtAction :=
      if w.networkExists then [] else [RtAction.networkCreate "eas-net"]
    if !w.networkExists && !w.networkCreateOk then
      ⟨false, netActs, [⟨OpKind.initOp, Option.none, false⟩], []⟩
    else if !w.redisDirExists && !w.mkdirOk then
      ⟨false, netActs, [⟨OpKind.initOp, Option.none, false⟩], []⟩
    else if !w.listContainersOk then
      ⟨false, netActs, [⟨OpKind.initOp, Option.none, false⟩], []⟩
    else if w.redisExists then
      ⟨true, netActs, [⟨OpKind.initOp, Option.none, true⟩], []⟩
    else
      let acts1 := netActs ++ [RtAction.containerRun "redis-cache"]
      if !w.runOk then
        ⟨false, acts1, [⟨OpKind.initOp, Option.none, false⟩], []⟩
      else
        let cp := connectPhase "redis-cache" (Option.some "192.168.1.1")
          w.containerGetOk w.networkGetOk w.staticConnectOk w.plainConnectOk
        ⟨true, acts1 ++ cp.1, [⟨OpKind.initOp, Option.none, true⟩], cp.2⟩

/-- World of one `deploy_adapter` run. -/
structure DeployWorld where
  adapter_name : String
  tagArg : Option String
  registry : RegistryResponse
  cfg : ConfigState
  listNetworksOk : Bool
  networkExists : Bool
  listContainersOk : Bool
  existingContainer : Bool
  removeOk : Bool
  runOk : Bool
  containerGetOk : Bool
  networkGetOk : Bool
  staticConnectOk : Bool
  plainConnectOk : Bool
deriving DecidableEq

/-- Tag resolution at the top of `deploy_adapter`: a falsy `tag` argument
(Python `None` or empty string) falls back to the first of the available
tags, and `None` here is the `if not tags: return False` exit. -/
def deployTag (w : DeployWorld) : Option String :=
  match w.tagArg with
  | Option.some t =>
      if t = "" then (get_available_tags w.registry).head? else Option.some t
  | Option.none => (get_available_tags w.registry).head?

/-- Precondition gates of `deploy_adapter` crossed before the journaled
try block: a resolved tag, a truthy adapter config, a successful network
listing, and the shared network present. -/
def deployGates (w : DeployWorld) : Bool :=
  (deployTag w).isSome &&
  (match get_adapter_config w.cfg w.adapter_name with
   | Option.none => false
   | Option.some cfg => !cfg.isEmpty) &&
  w.listNetworksOk && w.networkExists

/-- `EAManager.deploy_adapter`: gate checks return `False` with no journal
entry; inside the try block every raised failure is caught and journaled
as a DEPLOY failure, and the static-IP attachment phase cannot fail the
operation. `int(port)` is evaluated from the resolved port value when
building the run arguments. -/
def deploy_adapter (w : DeployWorld) : OpResult :=
  match deployTag w with
  | Option.none => ⟨false, [], [], []⟩
  | Option.some _tag =>
    match get_adapter_config w.cfg w.adapter_name with
    | Option.none => ⟨false, [], [], []⟩
    | Option.some cfg =>
      if cfg.isEmpty then ⟨false, [], [], []⟩
      else if !w.listNetworksOk then ⟨false, [], [], []⟩
      else if !w.networkExists then ⟨false, [], [], []⟩
      else
        let cname := w.adapter_name ++ "-redis"
        let failJ : List JournalEntry :=
          [⟨OpKind.deployOp, Option.some w.adapter_name, false⟩]
        if !w.listContainersOk then ⟨false, [], failJ, []⟩
        else
          let warns0 : List String :=
            if w.existingContainer then ["replacing-existing-container"] else []
          let acts0 : List RtAction :=
            if w.existingContainer then [RtAction.containerRemove cname] else []
          if w.existingContainer && !w.removeOk then
            ⟨false, acts0, failJ, warns0⟩
          else if !pyIntOk (pyDictGet cfg "port" (PyVal.str "1113")) then
            ⟨false, acts0, failJ, warns0⟩
          else
            let acts1 := acts0 ++ [RtAction.containerRun cname]
            if !w.runOk then ⟨false, acts1, failJ, warns0⟩
            else
              let ipOpt := pyValToOpt (pyDictGet cfg "ip" (PyVal.str "192.168.1.113"))
              let cp := connectPhase cname ipOpt
                w.containerGetOk w.networkGetOk w.staticConnectOk w.plainConnectOk
              ⟨true, acts1 ++ cp.1,
               [⟨OpKind.deployOp, Option.some w.adapter_name, true⟩],
               warns0 ++ cp.2⟩

/-- World of one `upgrade_adapter` run; `dw` is the world seen by the
nested `deploy_adapter` call. -/
structure UpgradeWorld where
  listContainersOk : Bool
  containerExists : Bool
  stopRemoveOk : Bool
  dw : DeployWorld
deriving DecidableEq

/-- `EAManager.upgrade_adapter`: the initial container listing is outside
any try, so its failure propagates out of the function (`Except.error`);
a missing container returns `False` with no journal entry; stop/remove
failures journal an UPGRADE failure; after a nested deploy, an UPGRADE
success entry is appended only when the deploy returned `True`. -/
def upgrade_adapter (u : UpgradeWorld) : Except Unit OpResult :=
  let cname := u.dw.adapter_name ++ "-redis"
  if !u.listContainersOk then Except.error ()
  else if !u.containerExists then Except.ok ⟨false, [], [], []⟩
  else if !u.stopRemoveOk then
    Except.ok ⟨false, [RtAction.containerStop cname],
      [⟨OpKind.upgradeOp, Option.some u.dw.adapter_name, false⟩], []⟩
  else
    let pre : List RtAction := [RtAction.containerStop cname, RtAction.containerRemove cname]
    let r := deploy_adapter u.dw
    if r.success then
      Except.ok ⟨true, pre ++ r.actions,
        r.journal ++ [⟨OpKind.upgradeOp, Option.some u.dw.adapter_name, true⟩],
        r.warnings⟩
    else
      Except.ok ⟨false, pre ++ r.actions, r.journal, r.warnings⟩

/-- Journal of an upgrade run, empty when the run raised. -/
def upgradeJournal (u : UpgradeWorld) : List JournalEntry :=
  match upgrade_adapter u with
  | Except.ok r => r.journal
  | Except.error _ => []

/-- Body of the probe response, as seen after the curl subprocess
succeeded: not decodable as JSON, or a decoded object given by its
fields. -/
inductive Body where
  | notJson
  | jsonObj (fields : List (String × String))
deriving DecidableEq

/-- Outcome of the curl subprocess in `test_adapter`: nonzero exit
(connection or timeout failure) or a captured response body. -/
inductive CurlOutcome where
  | fail
  | ok (body : Body)
deriving DecidableEq

/-- World of one `test_adapter` run: the container's address on `eas-net`
when the lookup succeeds (`none` falls back to the container name) and
the curl outcome. -/
structure TestWorld where
  containerIp : Option String
  curl : CurlOutcome
deriving DecidableEq

/-- Probe target URL built in `test_adapter` (line 370): the resolved host
and the hard-coded port 1113. -/
def probeUrl (containerIp : Option String) (container_name : String) : String :=
  "http://" ++ containerIp.getD container_name ++ ":1113"

/-- Result of a `test_adapter` run: the returned value, the request URL it
sent, and the journal entries appended. -/
structure TestResult where
  result : Option String
  request : String
  journal : List JournalEntry
deriving DecidableEq

/-- `EAManager.test_adapter`: one POST to the probe URL; a subprocess or
JSON-decode failure is journaled as a TEST failure returning `None`; a
decoded object is journaled as a TEST success and `response.get("result")`
is returned, even when the `result` field is absent. -/
def test_adapter (w : TestWorld) (container_name from_param to_param : String) :
    TestResult :=
  let url := probeUrl w.containerIp container_name
  match w.curl with
  | CurlOutcome.fail =>
      ⟨Option.none, url, [⟨OpKind.testOp, Option.some container_name, false⟩]⟩
  | CurlOutcome.ok Body.notJson =>
      ⟨Option.none, url, [⟨OpKind.testOp, Option.some container_name, false⟩]⟩
  | CurlOutcome.ok (Body.jsonObj fields) =>
      ⟨lookupStr fields "result", url,
       [⟨OpKind.testOp, Option.some container_name, true⟩]⟩

/-- Number of journal entries of a given kind. -/
def countKind (k : OpKind) (j : List JournalEntry) : Nat :=
  (j.filter (fun e => decide (e.kind = k))).length

/-- Code-point comparison is asymmetric. -/
theorem charsLtB_asymm : ∀ a b : List Char, charsLtB a b = true → charsLtB b a = false := by
  intro a
  induction a with
  | nil =>
    intro b hb
    cases b with
    | nil => simp [charsLtB] at hb
    | cons d ds => simp [charsLtB]
  | cons c cs ih =>
    intro b hb
    cases b with
    | nil => simp [charsLtB] at hb
    | cons d ds =>
      simp only [charsLtB] at hb ⊢
      by_cases h1 : c.toNat < d.toNat
      · rw [if_neg (Nat.lt_asymm h1), if_pos h1]
      · by_cases h2 : d.toNat < c.toNat
        · rw [if_neg h1, if_pos h2] at hb
          exact absurd hb (by simp)
        · rw [if_neg h2, if_neg h1] at hb ⊢
          exact ih ds hb

/-- String comparison by code points is asymmetric. -/
theorem strLtB_asymm (a b : String) (h : strLtB a b = true) : strLtB b a = false :=
  charsLtB_asymm _ _ h

/-- Inserting a smaller-or-equal element keeps the head bound. -/
theorem leadsB_insertDesc (y x : String) (l : List String)
    (hyx : strLtB y x = false) (hyl : leadsB y l = true) :
    leadsB y (insertDesc x l) = true := by
  cases l with
  | nil => simp [insertDesc, leadsB, hyx]
  | cons z zs =>
    simp only [insertDesc]
    by_cases hxz : strLtB x z = true
    · rw [if_pos hxz]
      simpa [leadsB] using hyl
    · rw [if_neg hxz]
      simp [leadsB, hyx]

/-- Insertion preserves descending order. -/
theorem descendingB_insertDesc (x : String) (l : List String)
    (h : descendingB l = true) : descendingB (insertDesc x l) = true := by
  induction l with
  | nil => simp [insertDesc, descendingB, leadsB]
  | cons y ys ih =>
    simp only [descendingB, Bool.and_eq_true] at h
    simp only [insertDesc]
    by_cases hxy : strLtB x y = true
    · rw [if_pos hxy]
      simp only [descendingB, Bool.and_eq_true]
      exact ⟨leadsB_insertDesc y x ys (strLtB_asymm x y hxy) h.1, ih h.2⟩
    · rw [if_neg hxy]
      simp only [descendingB, Bool.and_eq_true, leadsB, Bool.not_eq_true']
      refine ⟨?_, h.1, h.2⟩
      exact Bool.not_eq_true _ ▸ (by simpa using hxy)

/-- The sort model produces a descending list. -/
theorem descendingB_sortDesc (l : List String) : descendingB (sortDesc l) = true := by
  induction l with
  | nil => rfl
  | cons x xs ih => exact descendingB_insertDesc x (sortDesc xs) ih

/-- Truncation keeps the head bound. -/
theorem leadsB_take (x : String) (l : List String) (n : Nat)
    (h : leadsB x l = true) : leadsB x (l.take n) = true := by
  cases l with
  | nil => simp [leadsB]
  | cons y ys =>
    cases n with
    | zero => simp [leadsB]
    | succ m => simpa [leadsB, List.take] using h

/-- Truncation preserves descending order. -/
theorem descendingB_take (l : List String) (n : Nat)
    (h : descendingB l = true) : descendingB (l.take n) = true := by
  induction l generalizing n with
  | nil => simp [descendingB]
  | cons y ys ih =>
    cases n with
    | zero => rfl
    | succ m =>
      simp only [List.take, descendingB, Bool.and_eq_true] at h ⊢
      exact ⟨leadsB_take y ys m h.1, ih m h.2⟩

/-- Insertion is a permutation of consing. -/
theorem insertDesc_perm (x : String) (l : List String) :
    List.Perm (insertDesc x l) (x :: l) := by
  induction l with
  | nil => exact List.Perm.refl _
  | cons y ys ih =>
    simp only [insertDesc]
    by_cases h : strLtB x y = true
    · rw [if_pos h]
      exact (ih.cons y).trans (List.Perm.swap x y ys)
    · rw [if_neg h]

/-- The sort model permutes its input. -/
theorem sortDesc_perm (l : List String) : List.Perm (sortDesc l) l := by
  induction l with
  | nil => exact List.Perm.refl _
  | cons x xs ih => exact (insertDesc_perm x (sortDesc xs)).trans (ih.cons x)

/-- C1: an adapter discovered with neither an `--ip` nor a `-p` capture
gets a config dict whose `ip`/`port` keys are present with value `None`,
so `adapter_config.get('ip', '192.168.1.113')` and
`adapter_config.get('port', '1113')` return `None`, not the documented
fallbacks (the default only fires on an absent key, third conjunct); the
deploy run then raises at `int(port)` and is journaled as a DEPLOY
failure instead of deploying in a degraded form. -/
theorem c1_missing_ip_port_not_defaulted :
    pyDictGet (mkAdapterConfig Option.none Option.none Option.none Option.none)
      "ip" (PyVal.str "192.168.1.113") = PyVal.none ∧
    pyDictGet (mkAdapterConfig Option.none Option.none Option.none Option.none)
      "port" (PyVal.str "1113") = PyVal.none ∧
    pyDictGet [] "ip" (PyVal.str "192.168.1.113") = PyVal.str "192.168.1.113" ∧
    deploy_adapter ⟨"demo", Option.some "1.0.0",
      RegistryResponse.json (Option.some ["1.0.0"]),
      ⟨[("demo", mkAdapterConfig Option.none Option.none Option.none Option.none)], []⟩,
      true, true, true, false, true, true, true, true, true, true⟩ =
    ⟨false, [], [⟨OpKind.deployOp, Option.some "demo", false⟩], []⟩ := by
  exact ⟨by decide, by decide, by decide, by decide⟩

/-- C2 counterexample: a deploy run whose tag listing comes back empty
(registry failure, no explicit tag) reaches a terminal failure outcome
with an empty journal — zero appends, contradicting "never zero". -/
theorem c2_counterexample_zero_appends :
    deploy_adapter ⟨"demo", Option.none, RegistryResponse.execFail,
      ⟨[("demo", mkAdapterConfig (Option.some "192.168.1.113")
          (Option.some "1113") Option.none Option.none)], []⟩,
      true, true, true, false, true, true, true, true, true, true⟩ =
    ⟨false, [], [], []⟩ := by decide

/-- C3 counterexample: the transport succeeds and the body parses as JSON
but lacks the `result` field; `test_adapter` journals a TEST SUCCESS and
returns `None`, rather than failing with a FAILURE journal entry. -/
theorem c3_counterexample_missing_result_success :
    test_adapter ⟨Option.some "192.168.1.113",
        CurlOutcome.ok (Body.jsonObj [("status", "ok")])⟩
      "coingecko-redis" "LINK" "USD" =
    ⟨Option.none, "http://192.168.1.113:1113",
     [⟨OpKind.testOp, Option.some "coingecko-redis", true⟩]⟩ := by decide

/-- C3 (amended): a transport failure or an unparseable body is a failure
outcome with a FAILURE journal entry and a `None` result; a parseable
object is always journaled as a SUCCESS, with `response.get("result")`
returned verbatim even when the `result` field is absent. -/
theorem c3_probe_outcomes :
    ∀ (w : TestWorld) (n f t : String),
      ((w.curl = CurlOutcome.fail ∨ w.curl = CurlOutcome.ok Body.notJson) →
        test_adapter w n f t =
          ⟨Option.none, probeUrl w.containerIp n,
           [⟨OpKind.testOp, Option.some n, false⟩]⟩) ∧
      (∀ fields, w.curl = CurlOutcome.ok (Body.jsonObj fields) →
        (test_adapter w n f t).journal = [⟨OpKind.testOp, Option.some n, true⟩] ∧
        (test_adapter w n f t).result = lookupStr fields "result") := by
  intro w n f t
  constructor
  · rintro (h | h) <;> simp [test_adapter, h]
  · intro fields h
    simp [test_adapter, h]

/-- C3 witness: the amended behavior at concrete probes. -/
theorem c3_witness :
    test_adapter ⟨Option.none, CurlOutcome.fail⟩ "c" "LINK" "USD" =
      ⟨Option.none, probeUrl Option.none "c",
       [⟨OpKind.testOp, Option.some "c", false⟩]⟩ ∧
    (test_adapter ⟨Option.none, CurlOutcome.ok (Body.jsonObj [("result", "42")])⟩
        "c" "LINK" "USD").journal = [⟨OpKind.testOp, Option.some "c", true⟩] ∧
    (test_adapter ⟨Option.none, CurlOutcome.ok (Body.jsonObj [("result", "42")])⟩
        "c" "LINK" "USD").result = lookupStr [("result", "42")] "result" := by
  refine ⟨(c3_probe_outcomes ⟨Option.none, CurlOutcome.fail⟩ "c" "LINK" "USD").1
      (Or.inl rfl), ?_, ?_⟩
  · exact ((c3_probe_outcomes _ "c" "LINK" "USD").2 [("result", "42")] rfl).1
  · exact ((c3_probe_outcomes _ "c" "LINK" "USD").2 [("result", "42")] rfl).2

/-- C4 counterexample: a registry subprocess failure produces exactly the
same value as a successful lookup with an empty `Tags` array, so the
failure is not distinguishable from "no tags available". -/
theorem c4_counterexample_error_equals_empty :
    get_available_tags RegistryResponse.execFail =
      get_available_tags (RegistryResponse.json (Option.some [])) ∧
    get_available_tags RegistryResponse.badJson = ([] : List String) := by decide

/-- C4 (amended): registry I/O failure and a malformed registry response
are caught and surfaced as the empty tag list, indistinguishable from a
successful empty lookup; `deploy_adapter` treats the empty list as a
precondition failure and aborts with no journal entry. -/
theorem c4_registry_failure_empty :
    get_available_tags RegistryResponse.execFail = [] ∧
    get_available_tags RegistryResponse.badJson = [] ∧
    (∀ w : DeployWorld, w.tagArg = Option.none →
      get_available_tags w.registry = [] →
      deploy_adapter w = ⟨false, [], [], []⟩) := by
  refine ⟨rfl, rfl, ?_⟩
  intro w h1 h2
  unfold deploy_adapter deployTag
  rw [h1, h2]
  rfl

/-- C4 witness: a deploy run against a malformed registry response. -/
theorem c4_witness :
    deploy_adapter ⟨"demo", Option.none, RegistryResponse.badJson, ⟨[], []⟩,
      true, true, true, false, true, true, true, true, true, true⟩ =
    ⟨false, [], [], []⟩ :=
  c4_registry_failure_empty.2.2 _ rfl rfl

/-- C6 counterexample: a `Tags` array with a duplicate entry is returned
with the duplicate preserved, so the output is not strictly descending. -/
theorem c6_counterexample_duplicate_tags :
    get_available_tags (RegistryResponse.json (Option.some ["1.0.0", "1.0.0"])) =
      ["1.0.0", "1.0.0"] ∧
    strictlyDescendingB
      (get_available_tags (RegistryResponse.json (Option.some ["1.0.0", "1.0.0"]))) =
      false := by decide

/-- C6 (amended): for every registry response with a `Tags` array, the
returned sequence is the length-at-most-10 truncation of the descending
(not necessarily strict: duplicates stay adjacent) sort of the raw tags;
the sort is a permutation of the raw tags and truncation preserves the
order. -/
theorem c6_tags_descending_truncated :
    ∀ ts : List String,
      get_available_tags (RegistryResponse.json (Option.some ts)) =
        (sortDesc ts).take 10 ∧
      List.Perm (sortDesc ts) ts ∧
      descendingB (sortDesc ts) = true ∧
      descendingB (get_available_tags (RegistryResponse.json (Option.some ts))) = true ∧
      (get_available_tags (RegistryResponse.json (Option.some ts))).length ≤ 10 := by
  intro ts
  refine ⟨rfl, sortDesc_perm ts, descendingB_sortDesc ts, ?_, ?_⟩
  · exact descendingB_take (sortDesc ts) 10 (descendingB_sortDesc ts)
  · show ((sortDesc ts).take 10).length ≤ 10
    simp [List.length_take]

/-- C8: upgrading an adapter whose computed container name matches no
existing container returns failure with an empty journal — in particular
no UPGRADE SUCCESS entry — and attempts no runtime action. -/
theorem c8_upgrade_missing_container :
    ∀ u : UpgradeWorld, u.listContainersOk = true → u.containerExists = false →
      upgrade_adapter u = Except.ok ⟨false, [], [], []⟩ ∧
      countKind OpKind.upgradeOp (upgradeJournal u) = 0 := by
  intro u h1 h2
  have h : upgrade_adapter u = Except.ok ⟨false, [], [], []⟩ := by
    unfold upgrade_adapter
    simp [h1, h2]
  refine ⟨h, ?_⟩
  unfold upgradeJournal
  rw [h]
  rfl

/-- C8 witness: a concrete upgrade run with no matching container. -/
theorem c8_witness :
    upgrade_adapter ⟨true, false, true,
      ⟨"demo", Option.some "1.0.0", RegistryResponse.execFail, ⟨[], []⟩,
        true, true, true, false, true, true, true, true, true, true⟩⟩ =
      Except.ok ⟨false, [], [], []⟩ ∧
    countKind OpKind.upgradeOp (upgradeJournal ⟨true, false, true,
      ⟨"demo", Option.some "1.0.0", RegistryResponse.execFail, ⟨[], []⟩,
        true, true, true, false, true, true, true, true, true, true⟩⟩) = 0 :=
  c8_upgrade_missing_container _ rfl rfl

/-- C9: when the shared network and the cache container both already
exist (and the observing calls succeed), initialization performs zero
runtime actions — no network create, no container run, no network
connect — and returns success with a single INITIALIZE SUCCESS entry. -/
theorem c9_init_idempotent_no_actions :
    ∀ w : InitWorld, w.dockerRunning = true → w.listNetworksOk = true →
      w.networkExists = true → (w.redisDirExists || w.mkdirOk) = true →
      w.listContainersOk = true → w.redisExists = true →
      init_environment w = ⟨true, [], [⟨OpKind.initOp, Option.none, true⟩], []⟩ := by
  intro w h1 h2 h3 h4 h5 h6
  unfold init_environment
  simp [h1, h2, h3, h5, h6]
  intro hrd
  rw [hrd] at h4
  simpa using h4

/-- C9 witness: a concrete fully-provisioned environment. -/
theorem c9_witness :
    init_environment
      ⟨true, true, true, true, true, true, true, true, true, true, true, true, true⟩ =
    ⟨true, [], [⟨OpKind.initOp, Option.none, true⟩], []⟩ :=
  c9_init_idempotent_no_actions _ rfl rfl rfl rfl rfl rfl

/-- C10: the probe request of `test_adapter` always targets port 1113:
the URL is the resolved host (container address on the shared network, or
the container name as fallback) followed by the constant `:1113`,
independent of any configured adapter port. -/
theorem c10_probe_port_fixed :
    ∀ (w : TestWorld) (n f t : String),
      (test_adapter w n f t).request =
        "http://" ++ w.containerIp.getD n ++ ":1113" := by
  intro w n f t
  rcases w with ⟨ip, curl⟩
  cases curl with
  | fail => rfl
  | ok body => cases body <;> rfl

/-- A deploy run never appends an UPGRADE-kind journal entry. -/
theorem deploy_no_upgrade_entries (w : DeployWorld) :
    (deploy_adapter w).journal.filter
      (fun e => decide (e.kind = OpKind.upgradeOp)) = [] := by
  unfold deploy_adapter
  dsimp only
  repeat' split
  all_goals rfl

/-- C2 (amended): each operation appends at most one journal entry of its
own kind per run, but early precondition exits append none. Initialize
appends exactly one INITIALIZE entry (carrying its success flag) whenever
the container runtime is available, none otherwise. Deploy appends
exactly one DEPLOY entry once past its gates (tag resolved, truthy
config, network listing succeeded, shared network present), none on a
gate exit. Upgrade appends exactly one UPGRADE entry when the container
listing succeeds, the container exists, and either stop/remove raised or
the nested deploy succeeded; a missing container or a nested deploy that
returned failure appends no UPGRADE entry (the nested deploy may still
have appended its own DEPLOY entry). Test always appends exactly one TEST
entry, successful exactly when the body parsed. -/
theorem c2_journal_per_operation :
    (∀ w : InitWorld, (init_environment w).journal =
      if w.dockerRunning then
        [⟨OpKind.initOp, Option.none, (init_environment w).success⟩]
      else []) ∧
    (∀ w : DeployWorld,
      countKind OpKind.deployOp (deploy_adapter w).journal =
        if deployGates w then 1 else 0) ∧
    (∀ u : UpgradeWorld,
      countKind OpKind.upgradeOp (upgradeJournal u) =
        if u.listContainersOk && u.containerExists &&
            (!u.stopRemoveOk || (deploy_adapter u.dw).success) then 1 else 0) ∧
    (∀ (w : TestWorld) (n f t : String),
      (test_adapter w n f t).journal =
        [⟨OpKind.testOp, Option.some n,
          match w.curl with
          | CurlOutcome.ok (Body.jsonObj _) => true
          | _ => false⟩]) := by
  refine ⟨?_, ?_, ?_, ?_⟩
  · intro w
    rcases w with ⟨d, ln, ne, nc, rd, mk, lc, re, ru, cg, ng, sc, pc⟩
    cases d <;> cases ln <;> cases ne <;> cases nc <;> cases rd <;> cases mk <;>
      cases lc <;> cases re <;> cases ru <;> rfl
  · intro w
    unfold deploy_adapter deployGates
    cases ht : deployTag w with
    | none => simp [countKind, ht]
    | some tag =>
      cases hc : get_adapter_config w.cfg w.adapter_name with
      | none => simp [countKind, ht, hc]
      | some cfg =>
        simp only [ht, hc, Option.isSome_some, Bool.true_and]
        by_cases he : cfg.isEmpty = true <;>
        by_cases hln : w.listNetworksOk = true <;>
        by_cases hne : w.networkExists = true <;>
        by_cases hlc : w.listContainersOk = true <;>
        by_cases hex : w.existingContainer = true <;>
        by_cases hrm : w.removeOk = true <;>
        by_cases hpi : pyIntOk (pyDictGet cfg "port" (PyVal.str "1113")) = true <;>
        by_cases hru : w.runOk = true <;>
        simp [countKind, he, hln, hne, hlc, hex, hrm, hpi, hru]
  · intro u
    unfold upgradeJournal upgrade_adapter
    by_cases h1 : u.listContainersOk = true <;>
    by_cases h2 : u.containerExists = true <;>
    by_cases h3 : u.stopRemoveOk = true <;>
    by_cases h4 : (deploy_adapter u.dw).success = true <;>
    simp [h1, h2, h3, h4, countKind, List.filter_append,
      deploy_no_upgrade_entries u.dw]
  · intro w n f t
    rcases w with ⟨ip, curl⟩
    cases curl with
    | fail => rfl
    | ok body => cases body <;> rfl

/-- The baseline mapping never contains the credential key. -/
theorem baseline_no_api_key (n : String) (cfg : List (String × PyVal)) :
    envLookup (baselineEnvVars n cfg) "API_KEY" = Option.none := rfl

/-- The baseline mapping never contains the tier key. -/
theorem baseline_no_tier_key (n : String) (cfg : List (String × PyVal)) :
    envLookup (baselineEnvVars n cfg) "RATE_LIMIT_API_TIER" = Option.none := rfl

/-- Lookup distributes over concatenation of mappings. -/
theorem envLookup_append (l1 l2 : List (String × PyVal)) (k : String) :
    envLookup (l1 ++ l2) k =
      ((envLookup l1 k).orElse fun _ => envLookup l2 k) := by
  unfold envLookup
  rw [List.find?_append]
  cases l1.find? (fun p => p.1 == k) <;> rfl

/-- Credential-key content of the first synthesis step. -/
theorem env_with_key_api (c : ConfigState) (n : String)
    (cfg : List (String × PyVal)) :
    envLookup (env_with_key c n cfg) "API_KEY" =
      match get_api_key c n with
      | Option.some k => if k = "" then Option.none else Option.some (PyVal.str k)
      | Option.none => Option.none := by
  cases hA : get_api_key c n with
  | none =>
    simp only [env_with_key, hA]
    exact baseline_no_api_key n cfg
  | some k =>
    by_cases hk : k = ""
    · simp only [env_with_key, hA, if_pos hk]
      exact baseline_no_api_key n cfg
    · simp only [env_with_key, hA, if_neg hk]
      rw [envLookup_append, baseline_no_api_key n cfg]
      rfl

/-- The first synthesis step never contains the tier key. -/
theorem env_with_key_no_tier (c : ConfigState) (n : String)
    (cfg : List (String × PyVal)) :
    envLookup (env_with_key c n cfg) "RATE_LIMIT_API_TIER" = Option.none := by
  cases hA : get_api_key c n with
  | none =>
    simp only [env_with_key, hA]
    exact baseline_no_tier_key n cfg
  | some k =>
    by_cases hk : k = ""
    · simp only [env_with_key, hA, if_pos hk]
      exact baseline_no_tier_key n cfg
    · simp only [env_with_key, hA, if_neg hk]
      rw [envLookup_append, baseline_no_tier_key n cfg]
      rfl

/-- C5 counterexample: the credential store may hold an empty string
(from a line `export DEMO_KEY=`); the adapter's variable then resolves to
the stored value `""`, yet `if api_key:` is falsy and the synthesized
mapping contains no `API_KEY` key. -/
theorem c5_counterexample_empty_credential :
    get_api_key
      ⟨[("demo", mkAdapterConfig (Option.some "192.168.1.50")
          (Option.some "1150") (Option.some "DEMO_KEY") Option.none)],
        [("DEMO_KEY", "")]⟩ "demo" = Option.some "" ∧
    envLookup
      (build_env_vars
        ⟨[("demo", mkAdapterConfig (Option.some "192.168.1.50")
            (Option.some "1150") (Option.some "DEMO_KEY") Option.none)],
          [("DEMO_KEY", "")]⟩ "demo"
        (mkAdapterConfig (Option.some "192.168.1.50") (Option.some "1150")
          (Option.some "DEMO_KEY") Option.none)) "API_KEY" = Option.none := by
  decide

/-- C5 (amended): the synthesized mapping contains `API_KEY` exactly when
the adapter's credential resolves to a nonempty stored value, and then
maps it to exactly that value; a resolved-but-empty value is treated like
absence and emits no key at all; the same holds for
`RATE_LIMIT_API_TIER` and the subscription tier. -/
theorem c5_env_credential_keys :
    ∀ (c : ConfigState) (n : String) (cfg : List (String × PyVal)),
      (get_api_key c n = Option.none →
        envLookup (build_env_vars c n cfg) "API_KEY" = Option.none) ∧
      (∀ k, get_api_key c n = Option.some k → k ≠ "" →
        envLookup (build_env_vars c n cfg) "API_KEY" =
          Option.some (PyVal.str k)) ∧
      (get_api_key c n = Option.some "" →
        envLookup (build_env_vars c n cfg) "API_KEY" = Option.none) ∧
      (get_subscription_tier c n = Option.none →
        envLookup (build_env_vars c n cfg) "RATE_LIMIT_API_TIER" = Option.none) ∧
      (∀ t, get_subscription_tier c n = Option.some t → t ≠ "" →
        envLookup (build_env_vars c n cfg) "RATE_LIMIT_API_TIER" =
          Option.some (PyVal.str t)) ∧
      (get_subscription_tier c n = Option.some "" →
        envLookup (build_env_vars c n cfg) "RATE_LIMIT_API_TIER" =
          Option.none) := by
  intro c n cfg
  refine ⟨?_, ?_, ?_, ?_, ?_, ?_⟩
  · intro hA
    have h1 : envLookup (env_with_key c n cfg) "API_KEY" = Option.none := by
      simp only [env_with_key_api, hA]
    cases hT : get_subscription_tier c n with
    | none =>
      simp only [build_env_vars, hT]
      exact h1
    | some t =>
      by_cases ht : t = ""
      · simp only [build_env_vars, hT, if_pos ht]
        exact h1
      · simp only [build_env_vars, hT, if_neg ht]
        rw [envLookup_append, h1]
        rfl
  · intro k hA hk
    have h1 : envLookup (env_with_key c n cfg) "API_KEY" =
        Option.some (PyVal.str k) := by
      simp only [env_with_key_api, hA]
      rw [if_neg hk]
    cases hT : get_subscription_tier c n with
    | none =>
      simp only [build_env_vars, hT]
      exact h1
    | some t =>
      by_cases ht : t = ""
      · simp only [build_env_vars, hT, if_pos ht]
        exact h1
      · simp only [build_env_vars, hT, if_neg ht]
        rw [envLookup_append, h1]
        rfl
  · intro hA
    have h1 : envLookup (env_with_key c n cfg) "API_KEY" = Option.none := by
      simp only [env_with_key_api, hA]
      rfl
    cases hT : get_subscription_tier c n with
    | none =>
      simp only [build_env_vars, hT]
      exact h1
    | some t =>
      by_cases ht : t = ""
      · simp only [build_env_vars, hT, if_pos ht]
        exact h1
      · simp only [build_env_vars, hT, if_neg ht]
        rw [envLookup_append, h1]
        rfl
  · intro hT
    simp only [build_env_vars, hT]
    exact env_with_key_no_tier c n cfg
  · intro t hT ht
    simp only [build_env_vars, hT, if_neg ht]
    rw [envLookup_append, env_with_key_no_tier c n cfg]
    rfl
  · intro hT
    simp only [build_env_vars, hT]
    exact env_with_key_no_tier c n cfg

/-- C5 witness: a stored nonempty credential is emitted verbatim, an
absent tier emits no tier key, and an absent credential emits no
credential key. -/
theorem c5_witness :
    envLookup
      (build_env_vars
        ⟨[("a", mkAdapterConfig (Option.some "192.168.1.113")
            (Option.some "1113") (Option.some "AK") Option.none)],
          [("AK", "abc123")]⟩ "a"
        (mkAdapterConfig (Option.some "192.168.1.113") (Option.some "1113")
          (Option.some "AK") Option.none)) "API_KEY" =
      Option.some (PyVal.str "abc123") ∧
    envLookup
      (build_env_vars
        ⟨[("a", mkAdapterConfig (Option.some "192.168.1.113")
            (Option.some "1113") (Option.some "AK") Option.none)],
          [("AK", "abc123")]⟩ "a"
        (mkAdapterConfig (Option.some "192.168.1.113") (Option.some "1113")
          (Option.some "AK") Option.none)) "RATE_LIMIT_API_TIER" =
      Option.none ∧
    envLookup
      (build_env_vars ⟨[("b", mkAdapterConfig Option.none Option.none
          Option.none Option.none)], []⟩ "b"
        (mkAdapterConfig Option.none Option.none Option.none Option.none))
      "API_KEY" = Option.none := by
  refine ⟨(c5_env_credential_keys _ "a" _).2.1 "abc123" (by decide) (by decide),
    (c5_env_credential_keys _ "a" _).2.2.2.1 (by decide),
    (c5_env_credential_keys _ "b" _).1 (by decide)⟩

/-- C7: in Initialize and Deploy, when every other runtime call succeeds
but connecting the new container at its requested static address fails
(while the container and network lookups succeeded), the orchestrator
retries the attachment with no requested address, records the fallback as
a warning, and the operation still returns success with a SUCCESS journal
entry — the static-IP-attachment failure is never escalated to overall
failure (for any outcome of the plain retry). -/
theorem c7_static_ip_fallback_success :
    (∀ w : InitWorld,
      w.dockerRunning = true → w.listNetworksOk = true →
      (w.networkExists || w.networkCreateOk) = true →
      (w.redisDirExists || w.mkdirOk) = true →
      w.listContainersOk = true → w.redisExists = false →
      w.runOk = true → w.containerGetOk = true → w.networkGetOk = true →
      w.staticConnectOk = false →
      (init_environment w).success = true ∧
      RtAction.networkConnect "redis-cache" Option.none ∈
        (init_environment w).actions ∧
      "static-ip-fallback" ∈ (init_environment w).warnings ∧
      (init_environment w).journal = [⟨OpKind.initOp, Option.none, true⟩]) ∧
    (∀ (w : DeployWorld) (cfg : List (String × PyVal)),
      get_adapter_config w.cfg w.adapter_name = Option.some cfg →
      deployGates w = true → w.listContainersOk = true →
      (!w.existingContainer || w.removeOk) = true →
      pyIntOk (pyDictGet cfg "port" (PyVal.str "1113")) = true →
      w.runOk = true → w.containerGetOk = true → w.networkGetOk = true →
      w.staticConnectOk = false →
      (deploy_adapter w).success = true ∧
      RtAction.networkConnect (w.adapter_name ++ "-redis") Option.none ∈
        (deploy_adapter w).actions ∧
      "static-ip-fallback" ∈ (deploy_adapter w).warnings ∧
      (deploy_adapter w).journal =
        [⟨OpKind.deployOp, Option.some w.adapter_name, true⟩]) := by
  constructor
  · intro w h1 h2 h3 h4 h5 h6 h7 h8 h9 h10
    cases hne : w.networkExists <;> cases hnc : w.networkCreateOk <;>
      cases hrd : w.redisDirExists <;> cases hmk : w.mkdirOk <;>
      simp_all [init_environment, connectPhase]
  · intro w cfg hcfg hg hlc hexrm hpi hru hcg hng hsc
    have hgates : (deployTag w).isSome = true ∧ (!cfg.isEmpty) = true ∧
        w.listNetworksOk = true ∧ w.networkExists = true := by
      have hgg := hg
      unfold deployGates at hgg
      rw [hcfg] at hgg
      simpa [Bool.and_eq_true, and_assoc] using hgg
    obtain ⟨hts, hce, hln, hne⟩ := hgates
    cases ht : deployTag w with
    | none =>
      rw [ht] at hts
      exact absurd hts (by simp)
    | some tag =>
      cases hex : w.existingContainer <;>
        simp_all [deploy_adapter, connectPhase]

/-- C7 witness: the fallback policy at a concrete Initialize run and a
concrete Deploy run, both with a failing static-address attachment. -/
theorem c7_witness :
    ((init_environment
        ⟨true, true, true, true, true, true, true, false, true, true, true,
          false, true⟩).success = true ∧
      RtAction.networkConnect "redis-cache" Option.none ∈
        (init_environment
          ⟨true, true, true, true, true, true, true, false, true, true, true,
            false, true⟩).actions ∧
      "static-ip-fallback" ∈ (init_environment
        ⟨true, true, true, true, true, true, true, false, true, true, true,
          false, true⟩).warnings ∧
      (init_environment
        ⟨true, true, true, true, true, true, true, false, true, true, true,
          false, true⟩).journal = [⟨OpKind.initOp, Option.none, true⟩]) ∧
    ((deploy_adapter
        ⟨"demo", Option.some "1.0.0", RegistryResponse.json (Option.some ["1.0.0"]),
          ⟨[("demo", mkAdapterConfig (Option.some "192.168.1.113")
              (Option.some "1113") Option.none Option.none)], []⟩,
          true, true, true, false, true, true, true, true, false, true⟩).success =
        true ∧
      RtAction.networkConnect ("demo" ++ "-redis") Option.none ∈
        (deploy_adapter
          ⟨"demo", Option.some "1.0.0", RegistryResponse.json (Option.some ["1.0.0"]),
            ⟨[("demo", mkAdapterConfig (Option.some "192.168.1.113")
                (Option.some "1113") Option.none Option.none)], []⟩,
            true, true, true, false, true, true, true, true, false, true⟩).actions ∧
      "static-ip-fallback" ∈
        (deploy_adapter
          ⟨"demo", Option.some "1.0.0", RegistryResponse.json (Option.some ["1.0.0"]),
            ⟨[("demo", mkAdapterConfig (Option.some "192.168.1.113")
                (Option.some "1113") Option.none Option.none)], []⟩,
            true, true, true, false, true, true, true, true, false, true⟩).warnings ∧
      (deploy_adapter
        ⟨"demo", Option.some "1.0.0", RegistryResponse.json (Option.some ["1.0.0"]),
          ⟨[("demo", mkAdapterConfig (Option.some "192.168.1.113")
              (Option.some "1113") Option.none Option.none)], []⟩,
          true, true, true, false, true, true, true, true, false, true⟩).journal =
        [⟨OpKind.deployOp, Option.some "demo", true⟩]) := by
  constructor
  · exact c7_static_ip_fallback_success.1
      ⟨true, true, true, true, true, true, true, false, true, true, true,
        false, true⟩ rfl rfl (by decide) (by decide) rfl rfl rfl rfl rfl rfl
  · exact c7_static_ip_fallback_success.2
      ⟨"demo", Option.some "1.0.0", RegistryResponse.json (Option.some ["1.0.0"]),
        ⟨[("demo", mkAdapterConfig (Option.some "192.168.1.113")
            (Option.some "1113") Option.none Option.none)], []⟩,
        true, true, true, false, true, true, true, true, false, true⟩
      (mkAdapterConfig (Option.some "192.168.1.113") (Option.some "1113")
        Option.none Option.none)
      (by decide) (by decide) rfl (by decide) (by decide) rfl rfl rfl rfl
